import Mathlib

/- Shallow embedding of the acquisition engine in src/main.py of
   oracle-freetier-instance-creation.

   The embedding covers:
   - the error classification performed in `OciManager._execute_api_call`
     (retryable test first, then the LimitExceeded re-raise) and the one
     performed in the `except ServiceError` handler of
     `OciManager.launch_new_instance` (LimitExceeded test first);
   - `OciManager.check_for_existing_instance` (the existing-instance finder);
   - `OciManager.find_availability_domains` (suffix filtering of zones);
   - the launch loop of `OciManager.launch_new_instance`: zone cycling via
     `itertools.cycle`, the post-launch confirmation poll
     (`for _ in range(5)` with `time.sleep(60)`), the LimitExceeded
     disambiguation, the retryable sleep-and-continue, and the fatal re-raise.

   Provider interactions are modelled by oracles: a list of per-attempt launch
   results (`none` = call accepted, `some e` = ServiceError raised) and a list
   of `list_instances` snapshots consumed one per finder call (an exhausted
   snapshot oracle reads as an empty compartment).  The engine additionally
   records a trace of externally visible events (launch calls with the zone
   used, finder queries, sleeps, and the pre-loop subnet/image resolution). -/

def ARM_SHAPE : String := "VM.Standard.A1.Flex"

def E2_MICRO_SHAPE : String := "VM.Standard.E2.1.Micro"

def VALID_SHAPES : List String := [ARM_SHAPE, E2_MICRO_SHAPE]

/-- Character-list version of Python's str equality on a leading segment:
`leadsWith p s` is true when `p` is an initial segment of `s`. -/
def leadsWith : List Char → List Char → Bool
  | [], _ => true
  | _ :: _, [] => false
  | p :: ps, c :: cs => p == c && leadsWith ps cs

/-- Python's `pat in s` substring test on character lists. -/
def hasSub : List Char → List Char → Bool
  | [], pat => pat.isEmpty
  | c :: cs, pat => leadsWith pat (c :: cs) || hasSub cs pat

/-- Python's `pat in s` substring containment on strings
(`"Out of host capacity" in e.message`). -/
def strContains (s pat : String) : Bool := hasSub s.data pat.data

/-- Python's `s.endswith(t)` (`ad.name.endswith(free_ad)` in
`find_availability_domains`). -/
def trailsWith (s t : String) : Bool := leadsWith t.data.reverse s.data.reverse

/-- A provider error as carried by `oci.exceptions.ServiceError`: numeric
status, error code, and message.  The message is `Option String` because the
claims quantify over absent (`None`) messages as well. -/
structure ServiceError where
  status : Int
  code : String
  message : Option String
deriving DecidableEq, Repr

/-- The three-way classification the spec calls ErrorClassifier. -/
inductive Classification where
  | RETRYABLE
  | QUOTA_EXCEEDED
  | FATAL
deriving DecidableEq, Repr

/-- The retryable status list from main.py line 153/311:
`e.status in [429, 500, 502, 503, 504]`. -/
def retryStatuses : List Int := [429, 500, 502, 503, 504]

def capacityMsg : String := "Out of host capacity"

/-- The retryable test shared by both classification sites:
`e.status in [429, 500, 502, 503, 504] or e.code == "TooManyRequests" or
"Out of host capacity" in e.message`, with Python's short-circuit evaluation.
When the first two disjuncts are false and the message is `None`, Python's
`in` raises `TypeError` — modelled as `Except.error ()`. -/
def retryableCond (status : Int) (code : String) (message : Option String) :
    Except Unit Bool :=
  if status ∈ retryStatuses then Except.ok true
  else if code = "TooManyRequests" then Except.ok true
  else match message with
    | none => Except.error ()
    | some m => Except.ok (strContains m capacityMsg)

/-- Error classification in `OciManager._execute_api_call` (main.py 151-164):
the retryable test comes first, then `e.code == "LimitExceeded"` (re-raised
for the caller = QUOTA_EXCEEDED), else the unhandled re-raise (= FATAL). -/
def classifyExec (status : Int) (code : String) (message : Option String) :
    Except Unit Classification :=
  match retryableCond status code message with
  | Except.error e => Except.error e
  | Except.ok true => Except.ok Classification.RETRYABLE
  | Except.ok false =>
    if code = "LimitExceeded" then Except.ok Classification.QUOTA_EXCEEDED
    else Except.ok Classification.FATAL

/-- Error classification in the `except ServiceError` handler of
`OciManager.launch_new_instance` (main.py 300-318): here the
`e.code == "LimitExceeded"` test comes first, then the retryable test,
else the unhandled re-raise (= FATAL). -/
def classifyLaunch (status : Int) (code : String) (message : Option String) :
    Except Unit Classification :=
  if code = "LimitExceeded" then Except.ok Classification.QUOTA_EXCEEDED
  else match retryableCond status code message with
    | Except.error e => Except.error e
    | Except.ok true => Except.ok Classification.RETRYABLE
    | Except.ok false => Except.ok Classification.FATAL

/-- An `oci.core.models.Instance` restricted to the fields the engine reads. -/
structure Instance where
  id : String
  display_name : String
  shape : String
  lifecycle_state : String
deriving DecidableEq, Repr

/-- The lifecycle states accepted by `check_for_existing_instance`
(main.py line 203); the set is hardcoded there, not configurable. -/
def acceptableStates : List String := ["RUNNING", "PROVISIONING", "STARTING"]

/-- `OciManager.check_for_existing_instance` (main.py 198-220) applied to one
`list_instances` snapshot.  `computeShape` is `config.compute_shape` and
`isSecondMicroInstance` is `config.is_second_micro_instance`. -/
def check_for_existing_instance (computeShape : String)
    (isSecondMicroInstance : Bool) (instances : List Instance) :
    Option Instance :=
  let targetInstances := instances.filter
    (fun inst =>
      decide (inst.shape = computeShape ∧ inst.lifecycle_state ∈ acceptableStates))
  if computeShape = ARM_SHAPE ∧ targetInstances ≠ [] then
    targetInstances.head?
  else if computeShape = E2_MICRO_SHAPE then
    if isSecondMicroInstance ∧ 2 ≤ targetInstances.length then
      targetInstances.getLast?
    else if ¬isSecondMicroInstance ∧ 1 ≤ targetInstances.length then
      targetInstances.head?
    else none
  else none

/-- Terminal failure reasons of the acquisition run. -/
inductive FailReason where
  | NO_ZONES_AVAILABLE
  | QUOTA_EXCEEDED_OTHER_RESOURCE
  | VERIFICATION_TIMEOUT
  | FATAL_PROVIDER_ERROR (e : ServiceError)
deriving DecidableEq, Repr

/-- Result of a (finite prefix of a) run of `launch_new_instance`:
`running` means the launch-result oracle was exhausted while the loop was
still going (the loop itself never terminates on retryable errors);
`crashed` models a Python `TypeError` escaping (substring test on `None`). -/
inductive RunResult where
  | success (inst : Instance)
  | failed (r : FailReason)
  | crashed
  | running
deriving DecidableEq, Repr

/-- Externally visible events of the run, in order. -/
inductive Ev where
  | subnetLookup
  | imageLookup
  | launchCall (zone : String)
  | listInstances
  | sleep (secs : Nat)
deriving DecidableEq, Repr

/-- The configuration values the launch loop reads. -/
structure EngineConfig where
  compute_shape : String
  is_second_micro_instance : Bool
  wait_time_secs : Nat
  free_ad_list : List String
deriving Repr

/-- `OciManager.find_availability_domains` (main.py 166-169): keep the zones
whose name ends with one of the configured suffix patterns. -/
def find_availability_domains (allAds : List String) (freeAdList : List String) :
    List String :=
  allAds.filter (fun name => freeAdList.any (fun freeAd => trailsWith name freeAd))

/-- `itertools.cycle(ads)`: the i-th value produced by the cycler (0-based). -/
def cycleGet (ads : List String) (i : Nat) : String := ads.getD (i % ads.length) ""

/-- One round of the confirmation poll (body of `for _ in range(5)` in
main.py 290-295): query the finder on the next snapshot; if it finds an
instance return it, otherwise sleep 60 and continue with `rest`. -/
def confirm_round (shape : String) (flag : Bool) (snaps : List (List Instance))
    (rest : List (List Instance) → Option Instance × List Ev) :
    Option Instance × List Ev :=
  match check_for_existing_instance shape flag (snaps.headD []) with
  | some i => (some i, [Ev.listInstances])
  | none =>
    let p := rest snaps.tail
    (p.1, Ev.listInstances :: Ev.sleep 60 :: p.2)

/-- The full confirmation poll, `for _ in range(5)` unrolled: exactly five
rounds, with `time.sleep(60)` after every unsuccessful round (including the
fifth, after which the loop exits and verification fails). -/
def confirm_poll (shape : String) (flag : Bool) (snaps : List (List Instance)) :
    Option Instance × List Ev :=
  confirm_round shape flag snaps (fun s1 =>
  confirm_round shape flag s1 (fun s2 =>
  confirm_round shape flag s2 (fun s3 =>
  confirm_round shape flag s3 (fun s4 =>
  confirm_round shape flag s4 (fun _ => (none, []))))))

/-- The `while True` loop of `OciManager.launch_new_instance`
(main.py 280-318).  `idx` is the position of the zone cycler; each iteration
first advances the cycler (`launch_details.availability_domain =
next(ad_cycler)`), then submits the launch call.  `launchResults` is the
oracle of launch-call outcomes; `snaps` the oracle of `list_instances`
snapshots, one consumed per finder call. -/
def launch_loop (cfg : EngineConfig) (ads : List String) :
    Nat → List (Option ServiceError) → List (List Instance) →
    RunResult × List Ev
  | _, [], _ => (RunResult.running, [])
  | idx, r :: rs, snaps =>
    let z := cycleGet ads idx
    match r with
    | none =>
      let p := confirm_poll cfg.compute_shape cfg.is_second_micro_instance snaps
      match p.1 with
      | some i => (RunResult.success i, Ev.launchCall z :: p.2)
      | none =>
        (RunResult.failed FailReason.VERIFICATION_TIMEOUT, Ev.launchCall z :: p.2)
    | some e =>
      match classifyLaunch e.status e.code e.message with
      | Except.ok Classification.QUOTA_EXCEEDED =>
        match check_for_existing_instance cfg.compute_shape
            cfg.is_second_micro_instance (snaps.headD []) with
        | some i => (RunResult.success i, [Ev.launchCall z, Ev.listInstances])
        | none =>
          (RunResult.failed FailReason.QUOTA_EXCEEDED_OTHER_RESOURCE,
           [Ev.launchCall z, Ev.listInstances])
      | Except.ok Classification.RETRYABLE =>
        let p := launch_loop cfg ads (idx + 1) rs snaps
        (p.1, Ev.launchCall z :: Ev.sleep cfg.wait_time_secs :: p.2)
      | Except.ok Classification.FATAL =>
        (RunResult.failed (FailReason.FATAL_PROVIDER_ERROR e), [Ev.launchCall z])
      | Except.error _ => (RunResult.crashed, [Ev.launchCall z])

/-- `OciManager.launch_new_instance` (main.py 238-318): resolve the zone
candidates; an empty candidate list aborts with `NO_ZONES_AVAILABLE` before
the subnet lookup, the image lookup, and any launch call.  Otherwise the
subnet and image are resolved, the launch template is built — consuming the
first cycler value (`availability_domain=next(ad_cycler)`, main.py 263) —
and the loop starts at cycler position 1. -/
def launch_new_instance (cfg : EngineConfig) (allAds : List String)
    (launchResults : List (Option ServiceError)) (snaps : List (List Instance)) :
    RunResult × List Ev :=
  let ads := find_availability_domains allAds cfg.free_ad_list
  if ads = [] then (RunResult.failed FailReason.NO_ZONES_AVAILABLE, [])
  else
    let p := launch_loop cfg ads 1 launchResults snaps
    (p.1, Ev.subnetLookup :: Ev.imageLookup :: p.2)

/- Concrete values reused by witnesses and counterexamples. -/

def cfg0 : EngineConfig := ⟨ARM_SHAPE, false, 60, ["AD"]⟩

def cfgB : EngineConfig := ⟨ARM_SHAPE, false, 61, ["AD-1", "AD-2", "AD-3"]⟩

def adsB : List String := ["zz-AD-1", "zz-AD-2", "zz-AD-3"]

def armInst : Instance := ⟨"ocid1.arm", "arm-1", ARM_SHAPE, "RUNNING"⟩

def retryErr : ServiceError := ⟨503, "InternalError", some "oops"⟩

def quotaErr : ServiceError := ⟨400, "LimitExceeded", some "limit"⟩

def fatalErr : ServiceError := ⟨404, "NotAuthorizedOrNotFound", some "nope"⟩

/- Helper lemmas about the classifiers. -/

/-- Both classification sites, fully described for errors whose message is a
string: `classifyExec` tests the retryable condition first, `classifyLaunch`
tests the quota code first. -/
theorem classify_spec (status : Int) (code : String) (m : String) :
    classifyExec status code (some m) =
      Except.ok
        (if status ∈ retryStatuses ∨ code = "TooManyRequests" ∨
            strContains m capacityMsg then Classification.RETRYABLE
         else if code = "LimitExceeded" then Classification.QUOTA_EXCEEDED
         else Classification.FATAL) ∧
    classifyLaunch status code (some m) =
      Except.ok
        (if code = "LimitExceeded" then Classification.QUOTA_EXCEEDED
         else if status ∈ retryStatuses ∨ code = "TooManyRequests" ∨
            strContains m capacityMsg then Classification.RETRYABLE
         else Classification.FATAL) := by
  by_cases hs : status ∈ retryStatuses
  · by_cases hq : code = "LimitExceeded" <;>
      simp [classifyExec, classifyLaunch, retryableCond, hs, hq]
  · by_cases ht : code = "TooManyRequests"
    · by_cases hq : code = "LimitExceeded" <;>
        simp [classifyExec, classifyLaunch, retryableCond, hs, ht, hq]
    · by_cases hm : strContains m capacityMsg = true
      · by_cases hq : code = "LimitExceeded" <;>
          simp [classifyExec, classifyLaunch, retryableCond, hs, ht, hm, hq]
      · rw [Bool.not_eq_true] at hm
        by_cases hq : code = "LimitExceeded" <;>
          simp [classifyExec, classifyLaunch, retryableCond, hs, ht, hm, hq]

/- C1 -/

/-- C1 counterexample: in the `_execute_api_call` path the retryable test is
evaluated before the `LimitExceeded` test, so an error with code
"LimitExceeded" and status 429 is classified RETRYABLE (slept on and
retried), not QUOTA_EXCEEDED. -/
theorem C1_counterexample :
    classifyExec 429 "LimitExceeded" (some "limit reached") =
      Except.ok Classification.RETRYABLE ∧
    classifyExec 429 "LimitExceeded" (some "limit reached") ≠
      Except.ok Classification.QUOTA_EXCEEDED := by
  constructor
  · rfl
  · intro h
    rw [show classifyExec 429 "LimitExceeded" (some "limit reached") =
        Except.ok Classification.RETRYABLE from rfl] at h
    simp at h

/-- C1 amended: the quota rule has priority over the retryable rule only in
the launch-call path (`launch_new_instance`), where every "LimitExceeded"
error — any status, any message, even an absent one — is classified
QUOTA_EXCEEDED.  In the `_execute_api_call` path used by the other API calls
the retryable test runs first: a "LimitExceeded" error with a retryable
status or a message containing "Out of host capacity" is RETRYABLE there,
and only otherwise QUOTA_EXCEEDED. -/
theorem C1_amended_quota_priority :
    (∀ (status : Int) (message : Option String),
      classifyLaunch status "LimitExceeded" message =
        Except.ok Classification.QUOTA_EXCEEDED) ∧
    (∀ (status : Int) (m : String),
      classifyExec status "LimitExceeded" (some m) =
        Except.ok
          (if status ∈ retryStatuses ∨ strContains m capacityMsg then
            Classification.RETRYABLE
          else Classification.QUOTA_EXCEEDED)) := by
  constructor
  · intro status message
    simp [classifyLaunch]
  · intro status m
    have h := (classify_spec status "LimitExceeded" m).1
    rw [h]
    by_cases hs : status ∈ retryStatuses
    · simp [hs]
    · by_cases hm : strContains m capacityMsg = true
      · simp [hs, hm]
      · rw [Bool.not_eq_true] at hm
        simp [hs, hm]

/- C5 -/

/-- C5: for errors whose code is not "LimitExceeded" (and whose message is a
string, as the provider interface types it), both classification sites agree:
retryable status, "TooManyRequests" code, or an "Out of host capacity"
message means RETRYABLE; everything else is FATAL.  A FATAL launch error ends
the run with FAILED(FATAL_PROVIDER_ERROR) carrying the original error. -/
theorem C5_nonquota_classification :
    (∀ (status : Int) (code : String) (m : String), code ≠ "LimitExceeded" →
      (status ∈ retryStatuses ∨ code = "TooManyRequests" ∨
          strContains m capacityMsg →
        classifyExec status code (some m) = Except.ok Classification.RETRYABLE ∧
        classifyLaunch status code (some m) =
          Except.ok Classification.RETRYABLE) ∧
      (¬(status ∈ retryStatuses ∨ code = "TooManyRequests" ∨
          strContains m capacityMsg) →
        classifyExec status code (some m) = Except.ok Classification.FATAL ∧
        classifyLaunch status code (some m) =
          Except.ok Classification.FATAL)) ∧
    (∀ (cfg : EngineConfig) (ads : List String) (idx : Nat) (e : ServiceError)
        (rs : List (Option ServiceError)) (snaps : List (List Instance)),
      classifyLaunch e.status e.code e.message = Except.ok Classification.FATAL →
      launch_loop cfg ads idx (some e :: rs) snaps =
        (RunResult.failed (FailReason.FATAL_PROVIDER_ERROR e),
         [Ev.launchCall (cycleGet ads idx)])) := by
  constructor
  · intro status code m hne
    have h := classify_spec status code m
    constructor
    · intro hd
      rw [h.1, h.2]
      simp [hd, hne]
    · intro hnd
      rw [h.1, h.2]
      simp [hnd, hne]
  · intro cfg ads idx e rs snaps h
    simp only [launch_loop, h]

/-- C5 witness: the theorem applied at concrete errors and a concrete run. -/
theorem C5_witness :
    (classifyExec 429 "Anything" (some "m") =
        Except.ok Classification.RETRYABLE ∧
      classifyLaunch 429 "Anything" (some "m") =
        Except.ok Classification.RETRYABLE) ∧
    (classifyExec 404 "Anything" (some "m") = Except.ok Classification.FATAL ∧
      classifyLaunch 404 "Anything" (some "m") =
        Except.ok Classification.FATAL) ∧
    launch_loop cfg0 ["x-AD"] 1 [some fatalErr] [] =
      (RunResult.failed (FailReason.FATAL_PROVIDER_ERROR fatalErr),
       [Ev.launchCall "x-AD"]) :=
  ⟨(C5_nonquota_classification.1 429 "Anything" "m" (by decide)).1
      (Or.inl (by decide)),
   (C5_nonquota_classification.1 404 "Anything" "m" (by decide)).2 (by decide),
   C5_nonquota_classification.2 cfg0 ["x-AD"] 1 fatalErr [] [] (by rfl)⟩

/- C9 -/

/-- C9 counterexample: classification is not total — with an absent (None)
message, a status outside the retryable set and a code that is neither
"TooManyRequests" nor (in the exec path) caught earlier, the substring test
`"Out of host capacity" in e.message` raises TypeError in both paths. -/
theorem C9_counterexample_none_message :
    classifyExec 404 "NotAuthorizedOrNotFound" none = Except.error () ∧
    classifyLaunch 404 "NotAuthorizedOrNotFound" none = Except.error () :=
  ⟨rfl, rfl⟩

/-- C9 amended: classification is total for every error whose message is
present (a string) — any integer status and any code string — and every
unrecognized such error falls through to FATAL; totality fails only for an
absent (None) message reaching the substring test. -/
theorem C9_amended_total_on_string_messages :
    ∀ (status : Int) (code : String) (m : String),
      (∃ c, classifyExec status code (some m) = Except.ok c) ∧
      (∃ c, classifyLaunch status code (some m) = Except.ok c) ∧
      (status ∉ retryStatuses → code ≠ "TooManyRequests" →
        code ≠ "LimitExceeded" → strContains m capacityMsg = false →
        classifyExec status code (some m) = Except.ok Classification.FATAL ∧
        classifyLaunch status code (some m) =
          Except.ok Classification.FATAL) := by
  intro status code m
  have h := classify_spec status code m
  refine ⟨⟨_, h.1⟩, ⟨_, h.2⟩, ?_⟩
  intro hs ht hq hm
  rw [h.1, h.2]
  simp [hs, ht, hq, hm]

/-- C9 witness: the amended theorem applied at a concrete unrecognized
error. -/
theorem C9_witness :
    (∃ c, classifyExec 404 "NotAuthorizedOrNotFound" (some "nope") =
      Except.ok c) ∧
    (∃ c, classifyLaunch 404 "NotAuthorizedOrNotFound" (some "nope") =
      Except.ok c) ∧
    (classifyExec 404 "NotAuthorizedOrNotFound" (some "nope") =
        Except.ok Classification.FATAL ∧
      classifyLaunch 404 "NotAuthorizedOrNotFound" (some "nope") =
        Except.ok Classification.FATAL) :=
  ⟨(C9_amended_total_on_string_messages 404 "NotAuthorizedOrNotFound" "nope").1,
   (C9_amended_total_on_string_messages 404 "NotAuthorizedOrNotFound" "nope").2.1,
   (C9_amended_total_on_string_messages 404 "NotAuthorizedOrNotFound" "nope").2.2
     (by decide) (by decide) (by decide) (by decide)⟩

/- Finder lemmas. -/

theorem mem_of_head_opt {α : Type} {l : List α} {a : α}
    (h : l.head? = some a) : a ∈ l := by
  cases l with
  | nil => cases h
  | cons b t =>
    rw [List.head?_cons] at h
    cases h
    exact List.mem_cons_self _ _

theorem mem_of_last_opt {α : Type} {l : List α} {a : α}
    (h : l.getLast? = some a) : a ∈ l := by
  induction l with
  | nil => cases h
  | cons b t ih =>
    cases t with
    | nil =>
      rw [List.getLast?_singleton] at h
      cases h
      exact List.mem_cons_self _ _
    | cons c u =>
      rw [List.getLast?_cons_cons] at h
      exact List.mem_cons_of_mem _ (ih h)

/-- Whatever `check_for_existing_instance` returns was drawn from the
filtered list: its shape equals the configured shape and its lifecycle state
is in the hardcoded acceptable set. -/
theorem check_found_shape_state (shape : String) (flag : Bool)
    (insts : List Instance) (i : Instance)
    (h : check_for_existing_instance shape flag insts = some i) :
    i.shape = shape ∧ i.lifecycle_state ∈ acceptableStates := by
  simp only [check_for_existing_instance] at h
  have hmem : i ∈ insts.filter
      (fun inst =>
        decide (inst.shape = shape ∧ inst.lifecycle_state ∈ acceptableStates)) := by
    split at h
    · exact mem_of_head_opt h
    · split at h
      · split at h
        · exact mem_of_last_opt h
        · split at h
          · exact mem_of_head_opt h
          · cases h
      · cases h
  have := (List.mem_filter.mp hmem).2
  exact of_decide_eq_true this

/- C8 -/

def instAX : Instance := ⟨"ocid1.ax", "AX", ARM_SHAPE, "RUNNING"⟩

def instAY : Instance := ⟨"ocid1.ay", "AY", ARM_SHAPE, "RUNNING"⟩

def instAZ : Instance := ⟨"ocid1.az", "AZ", E2_MICRO_SHAPE, "RUNNING"⟩

def instMX : Instance := ⟨"ocid1.mx", "MX", E2_MICRO_SHAPE, "RUNNING"⟩

def instMY : Instance := ⟨"ocid1.my", "MY", E2_MICRO_SHAPE, "RUNNING"⟩

def instMZ : Instance := ⟨"ocid1.mz", "MZ", ARM_SHAPE, "RUNNING"⟩

def instSX : Instance := ⟨"ocid1.mx", "MX", E2_MICRO_SHAPE, "STOPPED"⟩

def instSY : Instance := ⟨"ocid1.my", "MY", E2_MICRO_SHAPE, "STOPPED"⟩

/-- C8 counterexample: the finder honors the ordinal only for the micro
shape.  With shape S being the ARM shape, the list [X(S,RUNNING),
Y(S,RUNNING), Z(T,RUNNING)] and the 2nd-ordinal flag set, the finder returns
X (the first qualifier), not Y as the claim states. -/
theorem C8_counterexample_arm_ordinal :
    check_for_existing_instance ARM_SHAPE true [instAX, instAY, instAZ] =
      some instAX ∧ instAX ≠ instAY := by
  exact ⟨rfl, by decide⟩

/-- C8 amended: ordinal selection works as claimed only when the configured
shape is the micro shape "VM.Standard.E2.1.Micro" (the ordinal is the
`is_second_micro_instance` flag): on [X(S,RUNNING), Y(S,RUNNING),
Z(T,RUNNING)] the 2nd-ordinal finder returns Y (most-recently-listed,
needing two qualifiers) and the 1st-ordinal finder returns X.  For the ARM
shape the first qualifier is returned regardless of the flag.  The
acceptable-state set is hardcoded, not criteria-supplied; instances in state
STOPPED never qualify, so the same list with X and Y STOPPED yields none. -/
theorem C8_amended_ordinal_selection :
    check_for_existing_instance E2_MICRO_SHAPE true [instMX, instMY, instMZ] =
      some instMY ∧
    check_for_existing_instance E2_MICRO_SHAPE false [instMX, instMY, instMZ] =
      some instMX ∧
    check_for_existing_instance E2_MICRO_SHAPE true [instSX, instSY, instMZ] =
      none ∧
    check_for_existing_instance E2_MICRO_SHAPE false [instSX, instSY, instMZ] =
      none ∧
    check_for_existing_instance ARM_SHAPE true [instAX, instAY, instAZ] =
      some instAX :=
  ⟨rfl, rfl, rfl, rfl, rfl⟩

/- Success-propagation lemmas for the engine. -/

/-- If one confirmation round reports an instance, some finder call on some
snapshot returned it. -/
theorem confirm_round_some (shape : String) (flag : Bool)
    (snaps : List (List Instance))
    (rest : List (List Instance) → Option Instance × List Ev) (i : Instance)
    (evs : List Ev)
    (hrest : ∀ s j e2, rest s = (some j, e2) →
      ∃ s2, check_for_existing_instance shape flag s2 = some j)
    (h : confirm_round shape flag snaps rest = (some i, evs)) :
    ∃ s, check_for_existing_instance shape flag s = some i := by
  unfold confirm_round at h
  cases hc : check_for_existing_instance shape flag (snaps.headD []) with
  | some j =>
    rw [hc] at h
    simp only [Prod.mk.injEq, Option.some.injEq] at h
    exact ⟨snaps.headD [], by rw [hc, h.1]⟩
  | none =>
    rw [hc] at h
    have h1 : (rest snaps.tail).1 = some i := by
      have := congrArg Prod.fst h
      simpa using this
    exact hrest snaps.tail i (rest snaps.tail).2 (Prod.ext_iff.mpr ⟨h1, rfl⟩)

/-- If the full confirmation poll reports an instance, some finder call on
some snapshot returned it. -/
theorem confirm_poll_some (shape : String) (flag : Bool)
    (snaps : List (List Instance)) (i : Instance) (evs : List Ev)
    (h : confirm_poll shape flag snaps = (some i, evs)) :
    ∃ s, check_for_existing_instance shape flag s = some i := by
  unfold confirm_poll at h
  refine confirm_round_some _ _ _ _ _ _ ?_ h
  intro s1 j1 e1 h1
  refine confirm_round_some _ _ _ _ _ _ ?_ h1
  intro s2 j2 e2 h2
  refine confirm_round_some _ _ _ _ _ _ ?_ h2
  intro s3 j3 e3 h3
  refine confirm_round_some _ _ _ _ _ _ ?_ h3
  intro s4 j4 e4 h4
  refine confirm_round_some _ _ _ _ _ _ ?_ h4
  intro s5 j5 e5 h5
  simp at h5

/-- Every successful run result of the launch loop was returned by some
finder call: both the confirmation poll and the quota disambiguation obtain
the instance from `check_for_existing_instance`. -/
theorem launch_loop_success_from_check (cfg : EngineConfig) (ads : List String) :
    ∀ (rs : List (Option ServiceError)) (idx : Nat)
      (snaps : List (List Instance)) (i : Instance) (evs : List Ev),
      launch_loop cfg ads idx rs snaps = (RunResult.success i, evs) →
      ∃ s, check_for_existing_instance cfg.compute_shape
        cfg.is_second_micro_instance s = some i := by
  intro rs
  induction rs with
  | nil =>
    intro idx snaps i evs h
    simp [launch_loop] at h
  | cons r rs ih =>
    intro idx snaps i evs h
    cases r with
    | none =>
      simp only [launch_loop] at h
      cases hc : (confirm_poll cfg.compute_shape cfg.is_second_micro_instance
          snaps).1 with
      | some j =>
        rw [hc] at h
        simp only [Prod.mk.injEq, RunResult.success.injEq] at h
        refine confirm_poll_some cfg.compute_shape cfg.is_second_micro_instance
          snaps i (confirm_poll cfg.compute_shape cfg.is_second_micro_instance
            snaps).2 ?_
        rw [Prod.ext_iff]
        exact ⟨by rw [hc, h.1], rfl⟩
      | none =>
        rw [hc] at h
        simp at h
    | some e =>
      simp only [launch_loop] at h
      cases hcl : classifyLaunch e.status e.code e.message with
      | error u =>
        rw [hcl] at h
        simp at h
      | ok c =>
        rw [hcl] at h
        cases c with
        | QUOTA_EXCEEDED =>
          cases hq : check_for_existing_instance cfg.compute_shape
              cfg.is_second_micro_instance (snaps.headD []) with
          | some j =>
            rw [hq] at h
            simp only [Prod.mk.injEq, RunResult.success.injEq] at h
            exact ⟨snaps.headD [], by rw [hq, h.1]⟩
          | none =>
            rw [hq] at h
            simp at h
        | RETRYABLE =>
          have h1 : (launch_loop cfg ads (idx + 1) rs snaps).1 =
              RunResult.success i := by
            have := congrArg Prod.fst h
            simpa using this
          exact ih (idx + 1) snaps i
            (launch_loop cfg ads (idx + 1) rs snaps).2
            (Prod.ext_iff.mpr ⟨h1, rfl⟩)
        | FATAL =>
          simp at h

/- C10 -/

/-- C10: the finder returns an instance only if its shape is exactly the
configured shape and its lifecycle state is in the fixed set {RUNNING,
PROVISIONING, STARTING} (so never STOPPED, STOPPING, TERMINATING or
TERMINATED); since the pre-run check, the confirmation poll and the quota
disambiguation all go through the same finder, any instance a run of the
launch loop succeeds with satisfies the same invariant. -/
theorem C10_finder_state_invariant :
    (∀ (shape : String) (flag : Bool) (insts : List Instance) (i : Instance),
      check_for_existing_instance shape flag insts = some i →
        i.shape = shape ∧ i.lifecycle_state ∈ acceptableStates ∧
        i.lifecycle_state ∉
          (["STOPPED", "STOPPING", "TERMINATING", "TERMINATED"] :
            List String)) ∧
    (∀ (cfg : EngineConfig) (ads : List String) (idx : Nat)
        (rs : List (Option ServiceError)) (snaps : List (List Instance))
        (i : Instance) (evs : List Ev),
      launch_loop cfg ads idx rs snaps = (RunResult.success i, evs) →
        i.shape = cfg.compute_shape ∧ i.lifecycle_state ∈ acceptableStates) := by
  constructor
  · intro shape flag insts i h
    have hh := check_found_shape_state shape flag insts i h
    refine ⟨hh.1, hh.2, ?_⟩
    have hmem := hh.2
    simp only [acceptableStates, List.mem_cons, List.mem_singleton,
      List.not_mem_nil, or_false] at hmem
    rcases hmem with h1 | h1 | h1 <;> rw [h1] <;> decide
  · intro cfg ads idx rs snaps i evs h
    obtain ⟨s, hs⟩ := launch_loop_success_from_check cfg ads rs idx snaps i evs h
    exact check_found_shape_state _ _ _ _ hs

/-- C10 witness: the invariant applied to a concrete finder call and a
concrete successful run. -/
theorem C10_witness :
    (instAX.shape = ARM_SHAPE ∧ instAX.lifecycle_state ∈ acceptableStates ∧
      instAX.lifecycle_state ∉
        (["STOPPED", "STOPPING", "TERMINATING", "TERMINATED"] :
          List String)) ∧
    (armInst.shape = cfg0.compute_shape ∧
      armInst.lifecycle_state ∈ acceptableStates) :=
  ⟨C10_finder_state_invariant.1 ARM_SHAPE false [instAX] instAX (by rfl),
   C10_finder_state_invariant.2 cfg0 ["x-AD"] 1 [none] [[armInst]] armInst
     [Ev.launchCall "x-AD", Ev.listInstances] (by rfl)⟩

/- C2 -/

/-- C2: the launch template is built with `next(ad_cycler)` ("Start with the
first AD", main.py 263), but the loop calls `next(ad_cycler)` again before
every submission (main.py 283), so the first cycle value is consumed and
overwritten before any launch: with zones [AD-1, AD-2, AD-3] and two
RETRYABLE failures followed by an accepted call confirmed on poll round 1,
the submissions use AD-2, AD-3, AD-1 — the successful third submission uses
the 4th rotation value, not the 3rd as the claim (and the code's own
comment) say.  The outcome is SUCCESS, as claimed. -/
theorem C2_first_zone_skipped :
    launch_new_instance cfgB adsB [some retryErr, some retryErr, none]
      [[armInst]] =
      (RunResult.success armInst,
       [Ev.subnetLookup, Ev.imageLookup,
        Ev.launchCall "zz-AD-2", Ev.sleep 61,
        Ev.launchCall "zz-AD-3", Ev.sleep 61,
        Ev.launchCall "zz-AD-1", Ev.listInstances]) := by
  rfl

/- C3 -/

/-- C3: when a launch call fails with the quota code "LimitExceeded", the
loop queries the finder exactly once (one listInstances event) and makes no
further launch attempt (exactly one launchCall event): if the finder returns
an instance the run ends in SUCCESS with it, otherwise it ends in the
terminal failure QUOTA_EXCEEDED_OTHER_RESOURCE. -/
theorem C3_quota_single_disambiguation (cfg : EngineConfig)
    (ads : List String) (idx : Nat) (e : ServiceError)
    (rs : List (Option ServiceError)) (snaps : List (List Instance))
    (h : e.code = "LimitExceeded") :
    launch_loop cfg ads idx (some e :: rs) snaps =
      ((match check_for_existing_instance cfg.compute_shape
          cfg.is_second_micro_instance (snaps.headD []) with
        | some i => RunResult.success i
        | none => RunResult.failed FailReason.QUOTA_EXCEEDED_OTHER_RESOURCE),
       [Ev.launchCall (cycleGet ads idx), Ev.listInstances]) := by
  have hq : classifyLaunch e.status e.code e.message =
      Except.ok Classification.QUOTA_EXCEEDED := by
    simp [classifyLaunch, h]
  simp only [launch_loop, hq]
  cases check_for_existing_instance cfg.compute_shape
      cfg.is_second_micro_instance (snaps.headD []) <;> rfl

/-- C3 witness: the quota path at a concrete error, once with a qualifying
instance present (SUCCESS) and once with none (terminal quota failure). -/
theorem C3_witness :
    quotaErr.code = "LimitExceeded" ∧
    launch_loop cfg0 ["x-AD"] 1 [some quotaErr] [[armInst]] =
      (RunResult.success armInst, [Ev.launchCall "x-AD", Ev.listInstances]) ∧
    launch_loop cfg0 ["x-AD"] 1 [some quotaErr] [[]] =
      (RunResult.failed FailReason.QUOTA_EXCEEDED_OTHER_RESOURCE,
       [Ev.launchCall "x-AD", Ev.listInstances]) :=
  ⟨rfl,
   C3_quota_single_disambiguation cfg0 ["x-AD"] 1 quotaErr [] [[armInst]] rfl,
   C3_quota_single_disambiguation cfg0 ["x-AD"] 1 quotaErr [] [[]] rfl⟩

/- C4 -/

/-- C4 counterexample: with an accepted launch and a finder that never
matches, the run fails with VERIFICATION_TIMEOUT after exactly 5 sleep(60)
events, and the trace ends with a sleep — i.e. the code sleeps after the
last poll round too, contradicting the claim's "and not after the last
round" (which would give 4 sleeps). -/
theorem C4_counterexample_sleep_after_last_round :
    (launch_new_instance cfg0 ["x-AD"] [none] []).1 =
      RunResult.failed FailReason.VERIFICATION_TIMEOUT ∧
    (launch_new_instance cfg0 ["x-AD"] [none] []).2.count (Ev.sleep 60) = 5 ∧
    (launch_new_instance cfg0 ["x-AD"] [none] []).2.getLast? =
      some (Ev.sleep 60) :=
  ⟨rfl, rfl, rfl⟩

/-- C4 amended: after an accepted launch the engine polls the finder up to
exactly 5 rounds and sleeps 60 time-units after every unsuccessful round —
including the last, so an exhausted poll performs 5 finder queries and 5
sleeps, then ends in the terminal failure VERIFICATION_TIMEOUT (no further
launch attempt appears in the trace).  If any round finds a qualifying
instance the run ends in SUCCESS with it: one conjunct per round below,
together with the exhaustion case a complete case analysis of the poll —
round k succeeding after k finder queries and k-1 sleeps. -/
theorem C4_amended_confirm_poll (cfg : EngineConfig) (ads : List String)
    (idx : Nat) (rs : List (Option ServiceError))
    (snaps : List (List Instance)) :
    (∀ i, check_for_existing_instance cfg.compute_shape
        cfg.is_second_micro_instance (snaps.headD []) = some i →
      launch_loop cfg ads idx (none :: rs) snaps =
        (RunResult.success i,
         [Ev.launchCall (cycleGet ads idx), Ev.listInstances])) ∧
    (∀ i, check_for_existing_instance cfg.compute_shape
        cfg.is_second_micro_instance (snaps.headD []) = none →
      check_for_existing_instance cfg.compute_shape cfg.is_second_micro_instance
        (snaps.tail.headD []) = some i →
      launch_loop cfg ads idx (none :: rs) snaps =
        (RunResult.success i,
         [Ev.launchCall (cycleGet ads idx),
          Ev.listInstances, Ev.sleep 60, Ev.listInstances])) ∧
    (∀ i, check_for_existing_instance cfg.compute_shape
        cfg.is_second_micro_instance (snaps.headD []) = none →
      check_for_existing_instance cfg.compute_shape cfg.is_second_micro_instance
        (snaps.tail.headD []) = none →
      check_for_existing_instance cfg.compute_shape cfg.is_second_micro_instance
        (snaps.tail.tail.headD []) = some i →
      launch_loop cfg ads idx (none :: rs) snaps =
        (RunResult.success i,
         [Ev.launchCall (cycleGet ads idx),
          Ev.listInstances, Ev.sleep 60, Ev.listInstances, Ev.sleep 60,
          Ev.listInstances])) ∧
    (∀ i, check_for_existing_instance cfg.compute_shape
        cfg.is_second_micro_instance (snaps.headD []) = none →
      check_for_existing_instance cfg.compute_shape cfg.is_second_micro_instance
        (snaps.tail.headD []) = none →
      check_for_existing_instance cfg.compute_shape cfg.is_second_micro_instance
        (snaps.tail.tail.headD []) = none →
      check_for_existing_instance cfg.compute_shape cfg.is_second_micro_instance
        (snaps.tail.tail.tail.headD []) = some i →
      launch_loop cfg ads idx (none :: rs) snaps =
        (RunResult.success i,
         [Ev.launchCall (cycleGet ads idx),
          Ev.listInstances, Ev.sleep 60, Ev.listInstances, Ev.sleep 60,
          Ev.listInstances, Ev.sleep 60, Ev.listInstances])) ∧
    (∀ i, check_for_existing_instance cfg.compute_shape
        cfg.is_second_micro_instance (snaps.headD []) = none →
      check_for_existing_instance cfg.compute_shape cfg.is_second_micro_instance
        (snaps.tail.headD []) = none →
      check_for_existing_instance cfg.compute_shape cfg.is_second_micro_instance
        (snaps.tail.tail.headD []) = none →
      check_for_existing_instance cfg.compute_shape cfg.is_second_micro_instance
        (snaps.tail.tail.tail.headD []) = none →
      check_for_existing_instance cfg.compute_shape cfg.is_second_micro_instance
        (snaps.tail.tail.tail.tail.headD []) = some i →
      launch_loop cfg ads idx (none :: rs) snaps =
        (RunResult.success i,
         [Ev.launchCall (cycleGet ads idx),
          Ev.listInstances, Ev.sleep 60, Ev.listInstances, Ev.sleep 60,
          Ev.listInstances, Ev.sleep 60, Ev.listInstances, Ev.sleep 60,
          Ev.listInstances])) ∧
    (check_for_existing_instance cfg.compute_shape cfg.is_second_micro_instance
        (snaps.headD []) = none →
     check_for_existing_instance cfg.compute_shape cfg.is_second_micro_instance
        (snaps.tail.headD []) = none →
     check_for_existing_instance cfg.compute_shape cfg.is_second_micro_instance
        (snaps.tail.tail.headD []) = none →
     check_for_existing_instance cfg.compute_shape cfg.is_second_micro_instance
        (snaps.tail.tail.tail.headD []) = none →
     check_for_existing_instance cfg.compute_shape cfg.is_second_micro_instance
        (snaps.tail.tail.tail.tail.headD []) = none →
      launch_loop cfg ads idx (none :: rs) snaps =
        (RunResult.failed FailReason.VERIFICATION_TIMEOUT,
         [Ev.launchCall (cycleGet ads idx),
          Ev.listInstances, Ev.sleep 60, Ev.listInstances, Ev.sleep 60,
          Ev.listInstances, Ev.sleep 60, Ev.listInstances, Ev.sleep 60,
          Ev.listInstances, Ev.sleep 60])) := by
  refine ⟨?_, ?_, ?_, ?_, ?_, ?_⟩
  · intro i h0
    simp only [launch_loop, confirm_poll, confirm_round, h0]
  · intro i h0 h1
    simp only [launch_loop, confirm_poll, confirm_round, h0, h1]
  · intro i h0 h1 h2
    simp only [launch_loop, confirm_poll, confirm_round, h0, h1, h2]
  · intro i h0 h1 h2 h3
    simp only [launch_loop, confirm_poll, confirm_round, h0, h1, h2, h3]
  · intro i h0 h1 h2 h3 h4
    simp only [launch_loop, confirm_poll, confirm_round, h0, h1, h2, h3, h4]
  · intro h0 h1 h2 h3 h4
    simp only [launch_loop, confirm_poll, confirm_round, h0, h1, h2, h3, h4]

/-- C4 witness: the amended theorem applied at concrete inputs — a match on
poll round 1, a match on poll round 3 (two empty snapshots first), and the
exhausted poll. -/
theorem C4_witness :
    launch_loop cfg0 ["x-AD"] 1 [none] [[armInst]] =
      (RunResult.success armInst, [Ev.launchCall "x-AD", Ev.listInstances]) ∧
    launch_loop cfg0 ["x-AD"] 1 [none] [[], [], [armInst]] =
      (RunResult.success armInst,
       [Ev.launchCall "x-AD",
        Ev.listInstances, Ev.sleep 60, Ev.listInstances, Ev.sleep 60,
        Ev.listInstances]) ∧
    launch_loop cfg0 ["x-AD"] 1 [none] [] =
      (RunResult.failed FailReason.VERIFICATION_TIMEOUT,
       [Ev.launchCall "x-AD",
        Ev.listInstances, Ev.sleep 60, Ev.listInstances, Ev.sleep 60,
        Ev.listInstances, Ev.sleep 60, Ev.listInstances, Ev.sleep 60,
        Ev.listInstances, Ev.sleep 60]) :=
  ⟨(C4_amended_confirm_poll cfg0 ["x-AD"] 1 [] [[armInst]]).1 armInst (by rfl),
   (C4_amended_confirm_poll cfg0 ["x-AD"] 1 [] [[], [], [armInst]]).2.2.1
     armInst (by rfl) (by rfl) (by rfl),
   (C4_amended_confirm_poll cfg0 ["x-AD"] 1 [] []).2.2.2.2.2 (by rfl) (by rfl)
     (by rfl) (by rfl) (by rfl)⟩

/- C6 -/

/-- Any FATAL_PROVIDER_ERROR failure the launch loop terminates with carries
an error the launch-path classifier classified FATAL — i.e. no
RETRYABLE-classified error ever escapes the loop as a final failure. -/
theorem launch_loop_fatal_classified (cfg : EngineConfig) (ads : List String) :
    ∀ (rs : List (Option ServiceError)) (idx : Nat)
      (snaps : List (List Instance)) (e : ServiceError) (evs : List Ev),
      launch_loop cfg ads idx rs snaps =
        (RunResult.failed (FailReason.FATAL_PROVIDER_ERROR e), evs) →
      classifyLaunch e.status e.code e.message =
        Except.ok Classification.FATAL := by
  intro rs
  induction rs with
  | nil =>
    intro idx snaps e evs h
    simp [launch_loop] at h
  | cons r rs ih =>
    intro idx snaps e evs h
    cases r with
    | none =>
      simp only [launch_loop] at h
      cases hc : (confirm_poll cfg.compute_shape cfg.is_second_micro_instance
          snaps).1 with
      | some j => rw [hc] at h; simp at h
      | none => rw [hc] at h; simp at h
    | some e2 =>
      simp only [launch_loop] at h
      cases hcl : classifyLaunch e2.status e2.code e2.message with
      | error u => rw [hcl] at h; simp at h
      | ok c =>
        rw [hcl] at h
        cases c with
        | QUOTA_EXCEEDED =>
          cases hq : check_for_existing_instance cfg.compute_shape
              cfg.is_second_micro_instance (snaps.headD []) with
          | some j => rw [hq] at h; simp at h
          | none => rw [hq] at h; simp at h
        | RETRYABLE =>
          have h1 : (launch_loop cfg ads (idx + 1) rs snaps).1 =
              RunResult.failed (FailReason.FATAL_PROVIDER_ERROR e) := by
            have := congrArg Prod.fst h
            simpa using this
          exact ih (idx + 1) snaps e
            (launch_loop cfg ads (idx + 1) rs snaps).2
            (Prod.ext_iff.mpr ⟨h1, rfl⟩)
        | FATAL =>
          simp only [Prod.mk.injEq, RunResult.failed.injEq,
            FailReason.FATAL_PROVIDER_ERROR.injEq] at h
          rw [← h.1]
          exact hcl

/-- C6: a RETRYABLE-classified launch error never produces a terminal
outcome.  First part: after a RETRYABLE failure the loop sleeps the
configured wait interval and makes the next attempt, whatever the remaining
oracle is (so any finite sequence of RETRYABLE failures is followed by a
further attempt — there is no attempt cap).  Second part: any
FATAL_PROVIDER_ERROR outcome carries an error classified FATAL, so no
RETRYABLE error escapes the engine as a final failure value. -/
theorem C6_retryable_never_terminal :
    (∀ (cfg : EngineConfig) (ads : List String) (idx : Nat) (e : ServiceError)
        (rs : List (Option ServiceError)) (snaps : List (List Instance)),
      classifyLaunch e.status e.code e.message =
        Except.ok Classification.RETRYABLE →
      launch_loop cfg ads idx (some e :: rs) snaps =
        ((launch_loop cfg ads (idx + 1) rs snaps).1,
         Ev.launchCall (cycleGet ads idx) :: Ev.sleep cfg.wait_time_secs ::
           (launch_loop cfg ads (idx + 1) rs snaps).2)) ∧
    (∀ (cfg : EngineConfig) (ads : List String) (idx : Nat)
        (rs : List (Option ServiceError)) (snaps : List (List Instance))
        (e : ServiceError) (evs : List Ev),
      launch_loop cfg ads idx rs snaps =
        (RunResult.failed (FailReason.FATAL_PROVIDER_ERROR e), evs) →
      classifyLaunch e.status e.code e.message =
        Except.ok Classification.FATAL) := by
  constructor
  · intro cfg ads idx e rs snaps h
    simp only [launch_loop, h]
  · intro cfg ads idx rs snaps e evs h
    exact launch_loop_fatal_classified cfg ads rs idx snaps e evs h

/-- C6 witness: the retry step at a concrete retryable error, and the
fatal-classification fact extracted from a concrete fatal run. -/
theorem C6_witness :
    launch_loop cfg0 ["x-AD"] 1 [some retryErr] [] =
      ((launch_loop cfg0 ["x-AD"] 2 [] []).1,
       Ev.launchCall "x-AD" :: Ev.sleep 60 ::
         (launch_loop cfg0 ["x-AD"] 2 [] []).2) ∧
    classifyLaunch fatalErr.status fatalErr.code fatalErr.message =
      Except.ok Classification.FATAL :=
  ⟨C6_retryable_never_terminal.1 cfg0 ["x-AD"] 1 retryErr [] [] (by rfl),
   C6_retryable_never_terminal.2 cfg0 ["x-AD"] 1 [some fatalErr] [] fatalErr
     [Ev.launchCall "x-AD"] (by rfl)⟩

/- C7 -/

/-- C7: when the zone candidate list (provider zones filtered by the
configured name-suffix patterns) is empty, the run fails with
NO_ZONES_AVAILABLE and the trace is empty — no subnet lookup, no image
lookup, no launch call and no finder query is performed. -/
theorem C7_no_zones (cfg : EngineConfig) (allAds : List String)
    (launchResults : List (Option ServiceError))
    (snaps : List (List Instance))
    (h : find_availability_domains allAds cfg.free_ad_list = []) :
    launch_new_instance cfg allAds launchResults snaps =
      (RunResult.failed FailReason.NO_ZONES_AVAILABLE, []) := by
  simp [launch_new_instance, h]

/-- C7 witness: a zone list none of whose names end with the configured
suffix pattern. -/
theorem C7_witness :
    find_availability_domains ["zone-1"] cfg0.free_ad_list = [] ∧
    launch_new_instance cfg0 ["zone-1"] [] [] =
      (RunResult.failed FailReason.NO_ZONES_AVAILABLE, []) :=
  ⟨by decide, C7_no_zones cfg0 ["zone-1"] [] [] (by decide)⟩
